import Mathlib

/-!
Shallow embedding of the session/message persistence and synchronization
layer of `src/main.py` (a Flask disposable-mail panel backed by SQLite).

Modelling conventions, stated once here:

* Timestamps (`datetime.utcnow()` readings, SQLite `TIMESTAMP` values) are
  modelled as natural numbers counting seconds; `timedelta(hours=24)` is the
  constant 86400.  `isoformat()` of a reading is modelled by `natIso`
  (decimal rendering), which like `isoformat` is injective on readings.
* The truncated hex digests `hashlib.sha256(x).hexdigest()[:16]` (message
  ids), `[:12]` (session ids) and `hashlib.md5(x).hexdigest()[:10]` are
  modelled by injective stand-ins (`msgDigest`, `sessionDigest`); the spec
  treats digest collisions as negligible and the source relies on that.
* A SQLite table is a list of rows in insertion (rowid) order.  `INSERT`
  appends; `DELETE ... WHERE` filters; `UPDATE ... WHERE` maps;
  `INSERT OR REPLACE` removes the row with the conflicting primary key and
  appends the fresh row.  `ORDER BY received_at DESC` (with no further sort
  key in the source) is modelled as a stable descending sort, ties keeping
  table order, which is what a full table scan produces.
* The in-memory dict `active_sessions` is modelled as the list of its keys.
* Python falsiness of a missing-or-empty request field (`if not session_id`)
  is `isMissing`; a JSON dict body is truthy iff it has at least one key.
* External HTTP traffic is modelled by an explicit outcome value per request
  (`GenOutcome` for the three generation strategies, `FetchOutcome` for the
  inbox fetch); each `datetime.utcnow()` call site receives the reading as a
  parameter (`clock` indexes the per-message reading inside the ingestion
  loop of `store_messages_in_db`).
-/

namespace TempMail

/-- Row of the `messages` table (`CREATE TABLE messages` in `init_db`). -/
structure MsgRow where
  message_id : String
  session_id : String
  sender : String
  recipient : String
  subject : String
  body_preview : String
  full_content : String
  received_at : Nat
  is_read : Bool
  deriving DecidableEq, Repr

/-- Row of the `sessions` table (`CREATE TABLE sessions` in `init_db`). -/
structure SessionRow where
  session_id : String
  email : String
  created_at : Nat
  last_activity : Nat
  is_active : Bool
  deriving DecidableEq, Repr

/-- Server state: the two exercised tables plus the keys of the in-memory
`active_sessions` dict (the `archives` table is never read or written by the
operations in scope). -/
structure ServerState where
  sessions : List SessionRow
  messages : List MsgRow
  active : List String
  deriving DecidableEq, Repr

/-- Python falsiness test applied to `data.get(field)`: the field is missing
(`None`) or the empty string. -/
def isMissing : Option String → Bool
  | none => true
  | some s => s == ""

/-- Stand-in for `datetime.isoformat()` applied to a clock reading; injective
on readings, as `isoformat` is. -/
def natIso (t : Nat) : String := toString t

/-- Stand-in for `hashlib.sha256(x.encode()).hexdigest()[:16]` used for
message ids; modelled injectively (spec: collision probability negligible). -/
def msgDigest (s : String) : String := s

/-- Stand-in for `hashlib.sha256(x.encode()).hexdigest()[:12]` used for
session ids; modelled injectively (spec: collision probability negligible). -/
def sessionDigest (s : String) : String := s

/-- A raw external message as handed to `store_messages_in_db`: either a text
blob (`isinstance(msg, str)`) or a JSON record (`isinstance(msg, dict)`) with
optional `sender`/`subject`/`preview`/`text` keys; `rendered` carries what
`str(msg)` would print for the record. -/
inductive RawMsg where
  | text (s : String)
  | record (sender subject preview textField : Option String) (rendered : String)
  deriving DecidableEq, Repr

/-- Field set extracted from one raw message by the body of the ingestion
loop in `store_messages_in_db` (lines 214-232 of `src/main.py`). -/
structure Extracted where
  sender : String
  subject : String
  preview : String
  full : String
  deriving DecidableEq, Repr

/-- Best-effort field extraction of `store_messages_in_db`: defaults
`Unknown` / `No Subject` / `No preview` / `str(msg)`; a text blob is split on
newlines after stripping, line 1 (minus a `NEW` marker) is the sender, line 3
the subject, line 4 the preview; a record supplies named fields, with `text`
overriding the stringified record as full content. -/
def extractFields : RawMsg → Extracted
  | .text s =>
      let lines := s.trim.splitOn "\n"
      if 3 ≤ lines.length then
        { sender := (((lines.get? 0).getD "").replace "NEW" "").trim
          subject := if 2 < lines.length then ((lines.get? 2).getD "").trim else "No Subject"
          preview := if 3 < lines.length then ((lines.get? 3).getD "").trim else "No preview"
          full := s }
      else
        { sender := "Unknown", subject := "No Subject", preview := "No preview", full := s }
  | .record sender subject preview textField rendered =>
      { sender := sender.getD "Unknown"
        subject := subject.getD "No Subject"
        preview := preview.getD "No preview"
        full := match textField with
          | some t => t
          | none => rendered }

/-- The derived message identifier for a raw message stamped at clock reading
`t`: digest of sender, subject, preview and the stamped arrival time
(line 235 of `src/main.py`). -/
def idFor (t : Nat) (m : RawMsg) : String :=
  let f := extractFields m
  msgDigest (f.sender ++ f.subject ++ f.preview ++ natIso t)

/-- Existence lookup `SELECT message_id FROM messages WHERE message_id = ?`
reduced to its boolean outcome. -/
def hasId (rows : List MsgRow) (mid : String) : Bool :=
  rows.any (fun r => r.message_id == mid)

/-- One iteration of the ingestion loop of `store_messages_in_db`: extract
fields, stamp the arrival time `t`, derive the id, skip the insert when the
id already exists, else insert the new unread row. -/
def storeOne (sid rec : String) (t : Nat) (m : RawMsg) (rows : List MsgRow) : List MsgRow :=
  let f := extractFields m
  let mid := msgDigest (f.sender ++ f.subject ++ f.preview ++ natIso t)
  if rows.any (fun r => r.message_id == mid) then rows
  else rows ++ [{ message_id := mid, session_id := sid, sender := f.sender, recipient := rec,
                  subject := f.subject, body_preview := f.preview, full_content := f.full,
                  received_at := t, is_read := false }]

/-- The ingestion loop over an indexed batch; entry `(i, m)` is stamped with
the clock reading `clock i` (the `datetime.utcnow()` call of iteration `i`). -/
def storeBatch (sid rec : String) (clock : Nat → Nat) (ps : List (Nat × RawMsg))
    (rows : List MsgRow) : List MsgRow :=
  ps.foldl (fun acc p => storeOne sid rec (clock p.1) p.2 acc) rows

/-- `store_messages_in_db(messages, session_id, recipient_email)`
(lines 209-250 of `src/main.py`); all inserts of one call are committed
together at the end, which the pure fold reflects. -/
def store_messages_in_db (msgs : List RawMsg) (sid rec : String) (clock : Nat → Nat)
    (rows : List MsgRow) : List MsgRow :=
  storeBatch sid rec clock msgs.enum rows

/-- Outcome of one generation-strategy attempt inside `generate_email`:
the request raised (caught by the inner `except`), returned a non-200
status, or returned 200 with a parsed body whose `email` key is `emailField`
(`none` when the key is absent). -/
inductive GenOutcome where
  | exn
  | non200 (code : Nat)
  | ok (emailField : Option String)
  deriving DecidableEq, Repr

/-- The strategy loop of `generate_email`: the first 200 response carrying an
`email` key breaks the loop with that value; every other outcome falls
through to the next strategy. -/
def firstOkEmail : List GenOutcome → Option String
  | [] => none
  | .ok (some e) :: _ => some e
  | .ok none :: rest => firstOkEmail rest
  | .exn :: rest => firstOkEmail rest
  | .non200 _ :: rest => firstOkEmail rest

/-- Custom-prefix splice `f"{custom_prefix}_{local_part}@{domain}"` after
`email.split('@', 1)`. -/
def spliceLocal (p email : String) : String :=
  let localPart := email.takeWhile (fun c => c ≠ '@')
  let domain := (email.dropWhile (fun c => c ≠ '@')).drop 1
  p ++ "_" ++ localPart ++ "@" ++ domain

/-- `TempMailSession.__init__(email, session_id)` (lines 63-81 of
`src/main.py`): `INSERT OR REPLACE` of a fresh row with `created_at` and
`last_activity` both set to the current reading and `is_active = 1`, then
installation of the in-memory handle. -/
def tempMailSessionInit (email sid : String) (now : Nat) (st : ServerState) : ServerState :=
  { st with
      sessions := st.sessions.filter (fun s => !(s.session_id == sid)) ++
        [{ session_id := sid, email := email, created_at := now, last_activity := now,
           is_active := true }]
      active := if st.active.contains sid then st.active else st.active ++ [sid] }

/-- Result dict of `generate_email`; `fallback` is `result.get('fallback',
False)`, i.e. `false` models the absent key. -/
structure GenResult where
  email : String
  session_id : String
  custom : Bool
  fallback : Bool
  deriving DecidableEq, Repr

/-- `generate_email(custom_prefix=...)` (lines 103-175 of `src/main.py`) on
the paths where no exception escapes the strategy loop: try the strategies in
order; if none yields an email (or it is falsy), synthesize
`{random_part}@tempmail.tmp` from the random token `random_part`
(= `md5(uuid4())[:10]`); splice a truthy custom prefix; derive the session id
from the address and the current `isoformat` reading `now_iso`; create the
session (store row + live handle).  The returned dict carries no `fallback`
key on any of these paths. -/
def generate_email (outcomes : List GenOutcome) (prefixArg : Option String)
    (random_part now_iso : String) (now : Nat) (st : ServerState) : ServerState × GenResult :=
  let email1 :=
    match firstOkEmail outcomes with
    | some e => if e == "" then random_part ++ "@tempmail.tmp" else e
    | none => random_part ++ "@tempmail.tmp"
  let email2 :=
    match prefixArg with
    | some p => if p != "" && email1.any (fun c => c == '@') then spliceLocal p email1 else email1
    | none => email1
  let sid := sessionDigest (email2 ++ now_iso)
  (tempMailSessionInit email2 sid now st,
   { email := email2, session_id := sid, custom := prefixArg.isSome, fallback := false })

/-- Response body of the `/generate-email` endpoint. -/
structure GenResponse where
  success : Bool
  email : String
  session_id : String
  custom : Bool
  fallback : Bool
  deriving DecidableEq, Repr

/-- `/generate-email` (lines 2319-2341 of `src/main.py`): the result dict is
always truthy, so the endpoint answers `success=True` and surfaces
`result.get('fallback', False)`. -/
def generate_email_endpoint (outcomes : List GenOutcome) (prefixArg : Option String)
    (random_part now_iso : String) (now : Nat) (st : ServerState) : ServerState × GenResponse :=
  let r := generate_email outcomes prefixArg random_part now_iso now st
  (r.1, { success := true, email := r.2.email, session_id := r.2.session_id,
          custom := r.2.custom, fallback := r.2.fallback })

/-- Shape of the dict `get_inbox` hands back: an optional `messages` key, an
optional `status` key, and whether any further key is present (`code`,
`error`, or extra keys of a 200 body) — enough to decide Python dict
truthiness and the `'messages' in raw_data` test. -/
structure InboxRaw where
  messages : Option (List RawMsg)
  status : Option String
  otherKeys : Bool
  deriving Repr

/-- Outcome of the external inbox fetch inside `get_inbox`: transport failure
(raised, caught), non-200 status, or 200 with a parsed body. -/
inductive FetchOutcome where
  | exn (msg : String)
  | non200 (code : Nat)
  | ok (body : InboxRaw)

/-- Failure outcomes of the inbox fetch. -/
def isFetchFailure : FetchOutcome → Bool
  | .exn _ => true
  | .non200 _ => true
  | .ok _ => false

/-- `get_inbox(email, session_id)` (lines 177-207 of `src/main.py`): non-200
yields `{'messages': [], 'status': 'error', 'code': ...}`; a raise yields
`{'messages': [], 'status': 'error', 'error': ...}`; a 200 body is returned
as-is after `store_messages_in_db` ran on a truthy `messages` value. -/
def get_inbox (outcome : FetchOutcome) (email sid : String) (clock : Nat → Nat)
    (rows : List MsgRow) : List MsgRow × InboxRaw :=
  match outcome with
  | .exn _ => (rows, { messages := some [], status := some "error", otherKeys := true })
  | .non200 _ => (rows, { messages := some [], status := some "error", otherKeys := true })
  | .ok body =>
      let rows' :=
        match body.messages with
        | some msgs => if msgs.isEmpty then rows else store_messages_in_db msgs sid email clock rows
        | none => rows
      (rows', body)

/-- Python truthiness of the dict behind `InboxRaw`: at least one key. -/
def dictTruthy (r : InboxRaw) : Bool :=
  r.messages.isSome || r.status.isSome || r.otherKeys

/-- Result record of `get_session_messages`. -/
structure ListResult where
  messages : List MsgRow
  total : Nat
  unread : Nat
  has_more : Bool
  deriving DecidableEq, Repr

/-- Stable insertion step of the descending arrival-time sort: the new row
goes in front of the first row whose time does not exceed it, so equal times
keep table order. -/
def insertDesc (r : MsgRow) : List MsgRow → List MsgRow
  | [] => [r]
  | x :: xs => if r.received_at < x.received_at then x :: insertDesc r xs else r :: x :: xs

/-- `ORDER BY received_at DESC` over a table scan: stable descending sort. -/
def orderByTimeDesc (l : List MsgRow) : List MsgRow := l.foldr insertDesc []

/-- `get_session_messages(session_id, limit, offset, unread_only)`
(lines 252-297 of `src/main.py`): filter the session's rows (optionally
unread only), order by arrival time descending, apply `OFFSET` then `LIMIT`;
`total` and `unread` always count the whole session; `has_more` is
`total > (offset + limit)`. -/
def get_session_messages (rows : List MsgRow) (sid : String) (limit offset : Nat)
    (unread_only : Bool) : ListResult :=
  let base := rows.filter (fun r => r.session_id == sid)
  let filtered := if unread_only then base.filter (fun r => !r.is_read) else base
  { messages := ((orderByTimeDesc filtered).drop offset).take limit
    total := base.length
    unread := (base.filter (fun r => !r.is_read)).length
    has_more := decide (offset + limit < base.length) }

/-- Plain ack body `{'success': ..., 'error': ...}`. -/
structure Ack where
  success : Bool
  error : Option String
  deriving DecidableEq, Repr

/-- Response body of `/check-inbox`. -/
structure CheckResponse where
  success : Bool
  new_count : Nat
  status : Option String
  error : Option String
  deriving DecidableEq, Repr

/-- `UPDATE sessions SET last_activity = ? WHERE session_id = ?` performed by
`TempMailSession.update_activity`. -/
def update_activity (sid : String) (now : Nat) (sessions : List SessionRow) : List SessionRow :=
  sessions.map (fun s => if s.session_id == sid then { s with last_activity := now } else s)

/-- `/check-inbox` (lines 2343-2373 of `src/main.py`): after the missing-field
check, touch the live session, run `get_inbox`, and answer `success=True`
with status `ok` (when the returned dict is truthy and has a `messages` key,
`new_count` being the session's unread count) or `no_messages` otherwise. -/
def check_inbox_endpoint (emailArg sidArg : Option String) (outcome : FetchOutcome)
    (clock : Nat → Nat) (now : Nat) (st : ServerState) : ServerState × CheckResponse :=
  if isMissing emailArg || isMissing sidArg then
    (st, { success := false, new_count := 0, status := none, error := some "Missing data" })
  else
    let email := emailArg.getD ""
    let sid := sidArg.getD ""
    let st1 := if st.active.contains sid then
        { st with sessions := update_activity sid now st.sessions } else st
    let fetched := get_inbox outcome email sid clock st1.messages
    let st2 := { st1 with messages := fetched.1 }
    if dictTruthy fetched.2 && fetched.2.messages.isSome then
      (st2, { success := true, new_count := (get_session_messages fetched.1 sid 50 0 true).unread,
              status := some "ok", error := none })
    else
      (st2, { success := true, new_count := 0, status := some "no_messages", error := none })

/-- `mark_as_read(message_id, session_id)` (lines 299-307 of `src/main.py`):
`UPDATE ... SET is_read = 1 WHERE message_id = ? AND session_id = ?`, then
`return True` unconditionally. -/
def mark_as_read (message_id session_id : String) (rows : List MsgRow) : List MsgRow × Bool :=
  (rows.map (fun r =>
     if r.message_id == message_id && r.session_id == session_id then { r with is_read := true }
     else r),
   true)

/-- `delete_message(message_id, session_id)` (lines 309-317 of `src/main.py`):
`DELETE ... WHERE message_id = ? AND session_id = ?`, then `return True`
unconditionally. -/
def delete_message (message_id session_id : String) (rows : List MsgRow) : List MsgRow × Bool :=
  (rows.filter (fun r => !(r.message_id == message_id && r.session_id == session_id)), true)

/-- `/mark-read` (lines 2429-2439 of `src/main.py`). -/
def mark_read_endpoint (sidArg midArg : Option String) (rows : List MsgRow) :
    List MsgRow × Ack :=
  if isMissing sidArg || isMissing midArg then
    (rows, { success := false, error := some "Missing data" })
  else
    let r := mark_as_read (midArg.getD "") (sidArg.getD "") rows
    (r.1, { success := r.2, error := none })

/-- `/delete-message` (lines 2458-2468 of `src/main.py`). -/
def delete_message_endpoint (sidArg midArg : Option String) (rows : List MsgRow) :
    List MsgRow × Ack :=
  if isMissing sidArg || isMissing midArg then
    (rows, { success := false, error := some "Missing data" })
  else
    let r := delete_message (midArg.getD "") (sidArg.getD "") rows
    (r.1, { success := r.2, error := none })

/-- Response body of `/get-message`. -/
structure GetMsgResponse where
  success : Bool
  message : Option MsgRow
  error : Option String
  deriving DecidableEq, Repr

/-- `/get-message` (lines 2396-2427 of `src/main.py`): fetch the first row
matching both ids; absent row answers the typed failure `Message not found`. -/
def get_message_endpoint (sidArg midArg : Option String) (rows : List MsgRow) : GetMsgResponse :=
  if isMissing sidArg || isMissing midArg then
    { success := false, message := none, error := some "Missing data" }
  else
    match rows.find? (fun r => r.session_id == sidArg.getD "" && r.message_id == midArg.getD "") with
    | some r => { success := true, message := some r, error := none }
    | none => { success := false, message := none, error := some "Message not found" }

/-- Minimal-quoting rule of Python's `csv.writer`: quote a field containing a
comma, quote, or line break, doubling inner quotes. -/
def csvQuote (s : String) : String :=
  if s.any (fun c => c == ',' || c == '"' || c == '\n' || c == '\r') then
    "\"" ++ s.replace "\"" "\"\"" ++ "\""
  else s

/-- One `writerow` call: comma-joined quoted fields plus the default
`\r\n` terminator. -/
def csvRow (fields : List String) : String :=
  String.intercalate "," (fields.map csvQuote) ++ "\r\n"

/-- The `csv` branch of `export_messages`: header then one row per message in
the fixed column order sender, recipient, subject, preview, time, read. -/
def csvExport (messages : List MsgRow) : String :=
  csvRow ["Sender", "Recipient", "Subject", "Preview", "Received At", "Read"] ++
  String.join (messages.map (fun m =>
    csvRow [m.sender, m.recipient, m.subject, m.body_preview, natIso m.received_at,
            if m.is_read then "Yes" else "No"]))

/-- The `txt` branch of `export_messages`: five labelled lines per message
and a 50-dash separator, joined with newlines. -/
def txtExport (messages : List MsgRow) : String :=
  String.intercalate "\n" (List.flatten (messages.map (fun m =>
    ["From: " ++ m.sender, "To: " ++ m.recipient, "Subject: " ++ m.subject,
     "Time: " ++ natIso m.received_at, "Preview: " ++ m.body_preview,
     String.mk (List.replicate 50 '-')])))

/-- The `json` branch of `export_messages`: `json.dumps` of the message
dicts.  The exact indentation layout of `json.dumps(..., indent=2)` is
irrelevant to every claim settled here; the rendering keeps the fields and
their order. -/
def jsonExport (messages : List MsgRow) : String :=
  "[" ++ String.intercalate ", " (messages.map (fun m =>
    "\x7b" ++
    "\"id\": \"" ++ m.message_id ++ "\", \"sender\": \"" ++ m.sender ++
    "\", \"recipient\": \"" ++ m.recipient ++ "\", \"subject\": \"" ++ m.subject ++
    "\", \"preview\": \"" ++ m.body_preview ++ "\", \"content\": \"" ++ m.full_content ++
    "\", \"time\": \"" ++ natIso m.received_at ++ "\", \"is_read\": " ++
    (if m.is_read then "true" else "false") ++
    "\x7d")) ++ "]"

/-- `export_messages(session_id, format_type)` (lines 319-351 of
`src/main.py`): serialize the first 1000 messages of the session in the
requested format; any other format string falls through to `return ""`. -/
def export_messages (rows : List MsgRow) (sid format_type : String) : String :=
  let messages := (get_session_messages rows sid 1000 0 false).messages
  if format_type == "json" then jsonExport messages
  else if format_type == "csv" then csvExport messages
  else if format_type == "txt" then txtExport messages
  else ""

/-- Response body of `/export-messages`. -/
structure ExportResponse where
  success : Bool
  content : String
  format : String
  mime_type : String
  error : Option String
  deriving DecidableEq, Repr

/-- `/export-messages` (lines 2599-2621 of `src/main.py`): always
`success=True` once a session id is supplied; the mime type is the dict
lookup `mime_types.get(format_type, 'text/plain')`. -/
def export_messages_endpoint (sidArg formatArg : Option String) (rows : List MsgRow) :
    ExportResponse :=
  if isMissing sidArg then
    { success := false, content := "", format := "", mime_type := "", error := some "Missing session ID" }
  else
    let format_type := formatArg.getD "json"
    let content := export_messages rows (sidArg.getD "") format_type
    { success := true, content := content, format := format_type,
      mime_type :=
        if format_type == "json" then "application/json"
        else if format_type == "csv" then "text/csv"
        else if format_type == "txt" then "text/plain"
        else "text/plain",
      error := none }

/-- `TempMailSession.deactivate` (lines 92-101 of `src/main.py`): flag the
row inactive and drop the live handle. -/
def deactivateRow (sid : String) (st : ServerState) : ServerState :=
  { st with
      sessions := st.sessions.map (fun s =>
        if s.session_id == sid then { s with is_active := false } else s)
      active := st.active.filter (fun a => !(a == sid)) }

/-- `/clear-all-sessions` (lines 2673-2688 of `src/main.py`): deactivate
every live handle, clear the dict, then `UPDATE sessions SET is_active = 0`
over the whole table; the `messages` table is not touched. -/
def clear_all_sessions_endpoint (st : ServerState) : ServerState × Ack :=
  let st1 := st.active.foldl (fun acc sid => deactivateRow sid acc) st
  let st2 := { st1 with active := [] }
  let st3 := { st2 with sessions := st2.sessions.map (fun s => { s with is_active := false }) }
  (st3, { success := true, error := none })

/-- `/delete-session` (lines 2487-2503 of `src/main.py`): deactivate the live
handle if present, flag the row inactive, and delete every message of the
session. -/
def delete_session_endpoint (sidArg : Option String) (st : ServerState) : ServerState × Ack :=
  if isMissing sidArg then (st, { success := false, error := some "Missing session ID" })
  else
    let sid := sidArg.getD ""
    let st1 := if st.active.contains sid then deactivateRow sid st else st
    let st2 := { st1 with
        sessions := st1.sessions.map (fun s =>
          if s.session_id == sid then { s with is_active := false } else s)
        messages := st1.messages.filter (fun m => !(m.session_id == sid)) }
    (st2, { success := true, error := none })

/-- Per-session purge step of `/delete-inactive`: delete the session's
messages, delete the session row, drop the live handle. -/
def purgeOne (sid : String) (st : ServerState) : ServerState :=
  { sessions := st.sessions.filter (fun s => !(s.session_id == sid))
    messages := st.messages.filter (fun m => !(m.session_id == sid))
    active := st.active.filter (fun a => !(a == sid)) }

/-- Response body of `/delete-inactive`. -/
structure DelInactiveResponse where
  success : Bool
  deleted_count : Nat
  error : Option String
  deriving DecidableEq, Repr

/-- `/delete-inactive` (lines 2640-2671 of `src/main.py`): select the
sessions with `is_active = 0` and `last_activity` strictly older than
`utcnow() - 24h`, purge each selected session, and report how many were
selected. -/
def delete_inactive_endpoint (now : Nat) (st : ServerState) : ServerState × DelInactiveResponse :=
  let cutoff := now - 86400
  let selected := (st.sessions.filter
      (fun s => !s.is_active && decide (s.last_activity < cutoff))).map (fun s => s.session_id)
  let st1 := selected.foldl (fun acc sid => purgeOne sid acc) st
  (st1, { success := true, deleted_count := selected.length, error := none })

/-- Response body of `/activate-session`. -/
structure ActivateResponse where
  success : Bool
  email : Option String
  session_id : Option String
  error : Option String
  deriving DecidableEq, Repr

/-- `/activate-session` (lines 2535-2558 of `src/main.py`): look up the email
of the first row with the given id; if found, construct a fresh
`TempMailSession` (insert-or-replace with fresh timestamps, live handle),
else answer the typed failure `Session not found`. -/
def activate_session_endpoint (sidArg : Option String) (now : Nat) (st : ServerState) :
    ServerState × ActivateResponse :=
  if isMissing sidArg then
    (st, { success := false, email := none, session_id := none,
           error := some "Missing session ID" })
  else
    let sid := sidArg.getD ""
    match st.sessions.find? (fun s => s.session_id == sid) with
    | some row =>
        (tempMailSessionInit row.email sid now st,
         { success := true, email := some row.email, session_id := some sid, error := none })
    | none =>
        (st, { success := false, email := none, session_id := none,
               error := some "Session not found" })

/-! ## Helper lemmas about the ingestion loop -/

lemma storeBatch_nil (sid rec : String) (clock : Nat → Nat) (rows : List MsgRow) :
    storeBatch sid rec clock [] rows = rows := rfl

lemma storeBatch_cons (sid rec : String) (clock : Nat → Nat) (q : Nat × RawMsg)
    (qs : List (Nat × RawMsg)) (rows : List MsgRow) :
    storeBatch sid rec clock (q :: qs) rows
      = storeBatch sid rec clock qs (storeOne sid rec (clock q.1) q.2 rows) := rfl

lemma storeOne_eq_of_hasId (sid rec : String) (t : Nat) (m : RawMsg) (rows : List MsgRow)
    (h : hasId rows (idFor t m) = true) : storeOne sid rec t m rows = rows := by
  simp only [hasId, idFor] at h
  simp only [storeOne]
  simp [h]

lemma hasId_storeOne (sid rec : String) (t : Nat) (m : RawMsg) (rows : List MsgRow)
    (mid : String) (h : hasId rows mid = true) :
    hasId (storeOne sid rec t m rows) mid = true := by
  simp only [storeOne, hasId] at *
  split
  · exact h
  · simp [List.any_append, h]

lemma hasId_storeOne_self (sid rec : String) (t : Nat) (m : RawMsg) (rows : List MsgRow) :
    hasId (storeOne sid rec t m rows) (idFor t m) = true := by
  simp only [storeOne, hasId, idFor]
  split
  · next h => exact h
  · simp [List.any_append]

lemma hasId_storeBatch (sid rec : String) (clock : Nat → Nat) (ps : List (Nat × RawMsg)) :
    ∀ (rows : List MsgRow) (mid : String), hasId rows mid = true →
      hasId (storeBatch sid rec clock ps rows) mid = true := by
  induction ps with
  | nil => intro rows mid h; simpa [storeBatch_nil] using h
  | cons q qs ih =>
      intro rows mid h
      rw [storeBatch_cons]
      exact ih _ _ (hasId_storeOne _ _ _ _ _ _ h)

lemma hasId_storeBatch_mem (sid rec : String) (clock : Nat → Nat) (p : Nat × RawMsg) :
    ∀ (ps : List (Nat × RawMsg)) (rows : List MsgRow), p ∈ ps →
      hasId (storeBatch sid rec clock ps rows) (idFor (clock p.1) p.2) = true := by
  intro ps
  induction ps with
  | nil => intro rows hp; cases hp
  | cons q qs ih =>
      intro rows hp
      rw [storeBatch_cons]
      rcases List.mem_cons.mp hp with h | h
      · subst h
        exact hasId_storeBatch _ _ _ _ _ _ (hasId_storeOne_self _ _ _ _ _)
      · exact ih _ h

lemma storeBatch_eq_of_present (sid rec : String) (clock : Nat → Nat) :
    ∀ (ps : List (Nat × RawMsg)) (rows : List MsgRow),
      (∀ p ∈ ps, hasId rows (idFor (clock p.1) p.2) = true) →
      storeBatch sid rec clock ps rows = rows := by
  intro ps
  induction ps with
  | nil => intro rows _; rfl
  | cons q qs ih =>
      intro rows h
      rw [storeBatch_cons, storeOne_eq_of_hasId _ _ _ _ _ (h q (List.mem_cons_self q qs))]
      exact ih rows (fun p hp => h p (List.mem_cons_of_mem q hp))

/-! ## Claim theorems -/

/-- C1, amended claim: ingesting the same raw batch twice for the same session
and recipient is idempotent when the second pass stamps each message with the
same arrival readings as the first (`clock` equal): the derived id is looked
up first and every insertion is skipped, so the stored table — and hence the
total stored message count — is unchanged.  (As stated, with a later second
ingestion time, the claim fails: see the counterexample.) -/
theorem store_messages_idempotent_same_clock (msgs : List RawMsg) (sid rec : String)
    (clock : Nat → Nat) (rows : List MsgRow) :
    store_messages_in_db msgs sid rec clock (store_messages_in_db msgs sid rec clock rows)
      = store_messages_in_db msgs sid rec clock rows := by
  unfold store_messages_in_db
  exact storeBatch_eq_of_present _ _ _ _ _
    (fun p hp => hasId_storeBatch_mem _ _ _ p _ _ hp)

/-- Concrete structured raw message used in the C1 counterexample. -/
def rawA : RawMsg := RawMsg.record (some "alice") (some "hi") (some "pre") none "rendered"

/-- C1 counterexample: the derived message id digests the arrival timestamp
stamped at ingestion time, so re-ingesting the identical batch at a later
clock reading (reading 1 instead of 0) derives a fresh id, the existence
lookup misses, and a duplicate row is inserted: the total count after
ingesting twice is 2, not the 1 the claim requires. -/
theorem store_messages_reingest_counterexample :
    (store_messages_in_db [rawA] "s1" "me@x.tmp" (fun _ => 0) []).length = 1 ∧
    (store_messages_in_db [rawA] "s1" "me@x.tmp" (fun _ => 1)
        (store_messages_in_db [rawA] "s1" "me@x.tmp" (fun _ => 0) [])).length = 2 := by
  exact ⟨rfl, rfl⟩

/-- C4: for every listing response of `get_session_messages` — any session,
limit, offset and unread-only flag — the returned `has_more` flag equals
`total > offset + limit`, where `total` is the count of all stored messages
of the session (the unread-only filter never enters the computation). -/
theorem has_more_eq_total_gt_offset_plus_limit (rows : List MsgRow) (sid : String)
    (limit offset : Nat) (unread_only : Bool) :
    (get_session_messages rows sid limit offset unread_only).has_more
      = decide (offset + limit < (get_session_messages rows sid limit offset unread_only).total)
    ∧ (get_session_messages rows sid limit offset unread_only).total
      = (rows.filter (fun r => r.session_id == sid)).length :=
  ⟨rfl, rfl⟩

/-- C5, amended claim: `get-message` with a `(session_id, message_id)` pair
matching no stored row answers the typed failure `success=false` /
`Message not found`, but `mark-read` and `delete-message` do not: both answer
`success=true` and leave the table unchanged (their SQL `UPDATE`/`DELETE`
matches nothing and the Python helpers return `True` unconditionally). -/
theorem mark_delete_unknown_pair_amended (rows : List MsgRow) (sid mid : String)
    (hs : sid ≠ "") (hm : mid ≠ "")
    (h : ∀ r ∈ rows, ¬(r.session_id = sid ∧ r.message_id = mid)) :
    (mark_read_endpoint (some sid) (some mid) rows).2.success = true ∧
    (mark_read_endpoint (some sid) (some mid) rows).1 = rows ∧
    (delete_message_endpoint (some sid) (some mid) rows).2.success = true ∧
    (delete_message_endpoint (some sid) (some mid) rows).1 = rows ∧
    (get_message_endpoint (some sid) (some mid) rows).success = false ∧
    (get_message_endpoint (some sid) (some mid) rows).error = some "Message not found" := by
  have hmiss : (isMissing (some sid) || isMissing (some mid)) = false := by
    simp [isMissing, hs, hm]
  have hmark : rows.map (fun r =>
      if r.message_id == mid && r.session_id == sid then { r with is_read := true } else r)
      = rows := by
    have : ∀ r ∈ rows, (if r.message_id == mid && r.session_id == sid
        then { r with is_read := true } else r) = id r := by
      intro r hr
      have hc : (r.message_id == mid && r.session_id == sid) = false := by
        have := h r hr
        simp only [Bool.and_eq_false_iff, beq_eq_false_iff_ne]
        by_cases h1 : r.message_id = mid
        · exact Or.inr (fun h2 => this ⟨h2, h1⟩)
        · exact Or.inl h1
      simp [hc]
    rw [List.map_congr_left this, List.map_id]
  have hdel : rows.filter (fun r => !(r.message_id == mid && r.session_id == sid)) = rows := by
    apply List.filter_eq_self.mpr
    intro r hr
    have := h r hr
    simp only [Bool.not_eq_eq_eq_not, Bool.not_true, Bool.and_eq_false_iff, beq_eq_false_iff_ne]
    by_cases h1 : r.message_id = mid
    · exact Or.inr (fun h2 => this ⟨h2, h1⟩)
    · exact Or.inl h1
  have hfind : rows.find? (fun r => r.session_id == sid && r.message_id == mid) = none := by
    apply List.find?_eq_none.mpr
    intro r hr
    have := h r hr
    simp only [Bool.and_eq_true, beq_iff_eq]
    exact fun hc => this ⟨hc.1, hc.2⟩
  have emark : mark_read_endpoint (some sid) (some mid) rows
      = ((mark_as_read mid sid rows).1,
         { success := (mark_as_read mid sid rows).2, error := none }) := by
    unfold mark_read_endpoint
    rw [hmiss]
    simp only [Bool.false_eq_true, if_false, Option.getD_some]
  have edel : delete_message_endpoint (some sid) (some mid) rows
      = ((delete_message mid sid rows).1,
         { success := (delete_message mid sid rows).2, error := none }) := by
    unfold delete_message_endpoint
    rw [hmiss]
    simp only [Bool.false_eq_true, if_false, Option.getD_some]
  have eget : get_message_endpoint (some sid) (some mid) rows
      = { success := false, message := none, error := some "Message not found" } := by
    unfold get_message_endpoint
    rw [hmiss]
    simp only [Bool.false_eq_true, if_false, Option.getD_some]
    rw [hfind]
  refine ⟨?_, ?_, ?_, ?_, ?_, ?_⟩
  · rw [emark]
    rfl
  · rw [emark]
    exact hmark
  · rw [edel]
    rfl
  · rw [edel]
    exact hdel
  · rw [eget]
  · rw [eget]


/-- C5 witness: concrete instance of the amended claim at an empty table. -/
theorem mark_delete_unknown_pair_amended_witness :
    (mark_read_endpoint (some "s") (some "m") []).2.success = true ∧
    (mark_read_endpoint (some "s") (some "m") []).1 = [] ∧
    (delete_message_endpoint (some "s") (some "m") []).2.success = true ∧
    (delete_message_endpoint (some "s") (some "m") []).1 = [] ∧
    (get_message_endpoint (some "s") (some "m") []).success = false ∧
    (get_message_endpoint (some "s") (some "m") []).error = some "Message not found" :=
  mark_delete_unknown_pair_amended [] "s" "m" (by decide) (by decide) (by decide)

/-- C5 counterexample: on an empty store, `mark-read` and `delete-message`
with an unknown `(session_id, message_id)` pair answer `success=true` — not
the typed not-found failure the claim asserts (which only `get-message`
gives). -/
theorem mark_delete_unknown_pair_counterexample :
    (mark_read_endpoint (some "sX") (some "mX") []).2
      = { success := true, error := none } ∧
    (delete_message_endpoint (some "sX") (some "mX") []).2
      = { success := true, error := none } ∧
    (get_message_endpoint (some "sX") (some "mX") []).success = false := by
  exact ⟨rfl, rfl, rfl⟩

/-- C10: requesting an export with any format string other than `json`,
`csv`, `txt` answers `success=true` with empty content and mime type
`text/plain` — the unsupported format is not a typed failure. -/
theorem export_unknown_format_empty_ok (rows : List MsgRow) (sid fmt : String)
    (hs : sid ≠ "") (h1 : fmt ≠ "json") (h2 : fmt ≠ "csv") (h3 : fmt ≠ "txt") :
    export_messages_endpoint (some sid) (some fmt) rows
      = { success := true, content := "", format := fmt, mime_type := "text/plain",
          error := none } := by
  simp [export_messages_endpoint, export_messages, isMissing, hs, h1, h2, h3]

/-- C10 witness: concrete instance at format `xml`. -/
theorem export_unknown_format_empty_ok_witness :
    export_messages_endpoint (some "s") (some "xml") []
      = { success := true, content := "", format := "xml", mime_type := "text/plain",
          error := none } :=
  export_unknown_format_empty_ok [] "s" "xml" (by decide) (by decide) (by decide) (by decide)

/-- Empty server state (fresh database, no live handles). -/
def emptyState : ServerState := { sessions := [], messages := [], active := [] }

/-- C2, amended claim: when every generation strategy fails without an
exception escaping the strategy loop, `generate_email` still returns a valid
result whose email is the locally synthesized `{random_part}@tempmail.tmp`
together with a derived session id, and the endpoint answers
`success=true` — but the result carries no `fallback` key on this path, so
the endpoint surfaces `fallback: false` (the `fallback: True` flag is set
only by the outer exception handler's ultimate-fallback path). -/
theorem generate_email_all_strategies_fail_amended (outcomes : List GenOutcome)
    (random_part now_iso : String) (now : Nat) (st : ServerState)
    (h : firstOkEmail outcomes = none) :
    ((generate_email_endpoint outcomes none random_part now_iso now st).2).success = true ∧
    ((generate_email_endpoint outcomes none random_part now_iso now st).2).email
      = random_part ++ "@tempmail.tmp" ∧
    ((generate_email_endpoint outcomes none random_part now_iso now st).2).session_id
      = sessionDigest ((random_part ++ "@tempmail.tmp") ++ now_iso) ∧
    ((generate_email_endpoint outcomes none random_part now_iso now st).2).fallback = false := by
  unfold generate_email_endpoint generate_email
  rw [h]
  exact ⟨rfl, rfl, rfl, rfl⟩

/-- C2 witness: concrete instance of the amended claim with all three
strategies failing (raise, non-200, 200 without an `email` key). -/
theorem generate_email_all_strategies_fail_amended_witness :
    ((generate_email_endpoint [GenOutcome.exn, GenOutcome.non200 500, GenOutcome.ok none]
        none "ab12cd34ef" "2024-01-01T00:00:00" 0 emptyState).2).success = true ∧
    ((generate_email_endpoint [GenOutcome.exn, GenOutcome.non200 500, GenOutcome.ok none]
        none "ab12cd34ef" "2024-01-01T00:00:00" 0 emptyState).2).email
      = "ab12cd34ef" ++ "@tempmail.tmp" ∧
    ((generate_email_endpoint [GenOutcome.exn, GenOutcome.non200 500, GenOutcome.ok none]
        none "ab12cd34ef" "2024-01-01T00:00:00" 0 emptyState).2).session_id
      = sessionDigest (("ab12cd34ef" ++ "@tempmail.tmp") ++ "2024-01-01T00:00:00") ∧
    ((generate_email_endpoint [GenOutcome.exn, GenOutcome.non200 500, GenOutcome.ok none]
        none "ab12cd34ef" "2024-01-01T00:00:00" 0 emptyState).2).fallback = false :=
  generate_email_all_strategies_fail_amended
    [GenOutcome.exn, GenOutcome.non200 500, GenOutcome.ok none]
    "ab12cd34ef" "2024-01-01T00:00:00" 0 emptyState rfl

/-- C2 counterexample: with every strategy failing and no escaping exception,
the `/generate-email` response still carries `fallback: false` — the result
dict of this path has no `fallback` key, so `result.get('fallback', False)`
is `False`, contradicting the claimed `usedFallback=true` / `fallback: true`. -/
theorem generate_email_fallback_flag_counterexample :
    ((generate_email_endpoint [GenOutcome.exn, GenOutcome.non200 500, GenOutcome.ok none]
        none "ffffffffff" "2024-01-01T00:00:01" 0 emptyState).2)
      = { success := true, email := "ffffffffff@tempmail.tmp",
          session_id := "ffffffffff@tempmail.tmp2024-01-01T00:00:01",
          custom := false, fallback := false } := by
  rfl

/-! ## Helper lemmas about the descending arrival-time sort -/

lemma mem_insertDesc (r y : MsgRow) :
    ∀ l : List MsgRow, y ∈ insertDesc r l ↔ y = r ∨ y ∈ l := by
  intro l
  induction l with
  | nil => simp [insertDesc]
  | cons x xs ih =>
      simp only [insertDesc]
      split
      · simp only [List.mem_cons, ih]
        tauto
      · simp only [List.mem_cons]

lemma insertDesc_perm (r : MsgRow) :
    ∀ l : List MsgRow, (insertDesc r l).Perm (r :: l) := by
  intro l
  induction l with
  | nil => simp [insertDesc]
  | cons x xs ih =>
      simp only [insertDesc]
      split
      · exact (ih.cons x).trans (List.Perm.swap r x xs)
      · exact List.Perm.refl _

lemma orderByTimeDesc_perm : ∀ l : List MsgRow, (orderByTimeDesc l).Perm l := by
  intro l
  induction l with
  | nil => exact List.Perm.nil
  | cons a as ih =>
      show (insertDesc a (orderByTimeDesc as)).Perm (a :: as)
      exact (insertDesc_perm a _).trans (ih.cons a)

lemma pairwise_insertDesc (r : MsgRow) :
    ∀ l : List MsgRow, l.Pairwise (fun a b => b.received_at ≤ a.received_at) →
      (insertDesc r l).Pairwise (fun a b => b.received_at ≤ a.received_at) := by
  intro l
  induction l with
  | nil => intro _; simp [insertDesc]
  | cons x xs ih =>
      intro h
      rw [List.pairwise_cons] at h
      obtain ⟨hx, hxs⟩ := h
      simp only [insertDesc]
      split
      · next hlt =>
          rw [List.pairwise_cons]
          refine ⟨?_, ih hxs⟩
          intro y hy
          rcases (mem_insertDesc r y xs).mp hy with rfl | hyx
          · exact Nat.le_of_lt hlt
          · exact hx y hyx
      · next hge =>
          rw [List.pairwise_cons]
          refine ⟨?_, List.pairwise_cons.mpr ⟨hx, hxs⟩⟩
          intro y hy
          rcases List.mem_cons.mp hy with rfl | hyx
          · exact Nat.le_of_not_lt hge
          · exact le_trans (hx y hyx) (Nat.le_of_not_lt hge)

lemma orderByTimeDesc_pairwise :
    ∀ l : List MsgRow,
      (orderByTimeDesc l).Pairwise (fun a b => b.received_at ≤ a.received_at) := by
  intro l
  induction l with
  | nil => simp [orderByTimeDesc]
  | cons a as ih =>
      show (insertDesc a (orderByTimeDesc as)).Pairwise _
      exact pairwise_insertDesc a _ ih

lemma flatten_take_pages (L : List MsgRow) (k : Nat) :
    ∀ n : Nat,
      ((List.range n).map (fun i => (L.drop (i * k)).take k)).flatten = L.take (n * k) := by
  intro n
  induction n with
  | zero => simp
  | succ m ih =>
      rw [List.range_succ, List.map_append, List.flatten_append]
      simp only [List.map_cons, List.map_nil, List.flatten_cons, List.flatten_nil,
        List.append_nil]
      rw [ih, Nat.succ_mul, List.take_add]

/-- C3, amended claim: within one session the listing order of
`get_session_messages` is deterministic — arrival time descending with ties
kept in table (insertion) order; the source query has no identifier
tie-break.  For a session whose messages fit in `n` pages of size `k`, the
concatenation of the pages at offsets `0, k, 2k, ...` reproduces exactly the
session's messages (a permutation of them, so no duplicates and no gaps) in
descending arrival order. -/
theorem pagination_reproduces_all_messages (rows : List MsgRow) (sid : String) (k n : Nat)
    (hk : 0 < k)
    (hn : (rows.filter (fun r => r.session_id == sid)).length ≤ n * k) :
    ((List.range n).map (fun i => (get_session_messages rows sid k (i * k) false).messages)).flatten
      = orderByTimeDesc (rows.filter (fun r => r.session_id == sid)) ∧
    (orderByTimeDesc (rows.filter (fun r => r.session_id == sid))).Perm
      (rows.filter (fun r => r.session_id == sid)) ∧
    (orderByTimeDesc (rows.filter (fun r => r.session_id == sid))).Pairwise
      (fun a b => b.received_at ≤ a.received_at) := by
  refine ⟨?_, orderByTimeDesc_perm _, orderByTimeDesc_pairwise _⟩
  have hmsg : ∀ i : Nat, (get_session_messages rows sid k (i * k) false).messages
      = ((orderByTimeDesc (rows.filter (fun r => r.session_id == sid))).drop (i * k)).take k :=
    fun i => rfl
  simp only [hmsg]
  rw [flatten_take_pages]
  apply List.take_of_length_le
  rw [(orderByTimeDesc_perm _).length_eq]
  exact hn

/-- Concrete rows for the C3 witness: three messages of session `s` with
distinct arrival times plus one message of another session. -/
def pageRows : List MsgRow :=
  [{ message_id := "m1", session_id := "s", sender := "a", recipient := "r", subject := "u1",
     body_preview := "p1", full_content := "f1", received_at := 1, is_read := false },
   { message_id := "m2", session_id := "s", sender := "b", recipient := "r", subject := "u2",
     body_preview := "p2", full_content := "f2", received_at := 3, is_read := true },
   { message_id := "mo", session_id := "other", sender := "c", recipient := "r2", subject := "u3",
     body_preview := "p3", full_content := "f3", received_at := 9, is_read := false },
   { message_id := "m3", session_id := "s", sender := "d", recipient := "r", subject := "u4",
     body_preview := "p4", full_content := "f4", received_at := 2, is_read := false }]

/-- C3 witness: concrete instance — 3 messages of the session, page size 2,
2 pages. -/
theorem pagination_reproduces_all_messages_witness :
    ((List.range 2).map
        (fun i => (get_session_messages pageRows "s" 2 (i * 2) false).messages)).flatten
      = orderByTimeDesc (pageRows.filter (fun r => r.session_id == "s")) ∧
    (orderByTimeDesc (pageRows.filter (fun r => r.session_id == "s"))).Perm
      (pageRows.filter (fun r => r.session_id == "s")) ∧
    (orderByTimeDesc (pageRows.filter (fun r => r.session_id == "s"))).Pairwise
      (fun a b => b.received_at ≤ a.received_at) :=
  pagination_reproduces_all_messages pageRows "s" 2 2 (by decide) (by decide)

/-- Concrete tied rows for the C3 counterexample. -/
def rowTieA : MsgRow :=
  { message_id := "a", session_id := "s", sender := "x", recipient := "r", subject := "u",
    body_preview := "p", full_content := "f", received_at := 5, is_read := false }

/-- Second tied row for the C3 counterexample. -/
def rowTieB : MsgRow :=
  { message_id := "b", session_id := "s", sender := "y", recipient := "r", subject := "v",
    body_preview := "q", full_content := "g", received_at := 5, is_read := false }

/-- C3 counterexample: the source query orders by `received_at DESC` only —
there is no identifier tie-break.  Two tables holding the same two messages
(equal arrival times, distinct identifiers) list them in different orders
depending on insertion order, so the listing order is not determined by
arrival time and message identifier as the claim asserts. -/
theorem listing_tie_break_counterexample :
    (get_session_messages [rowTieB, rowTieA] "s" 2 0 false).messages = [rowTieB, rowTieA] ∧
    (get_session_messages [rowTieA, rowTieB] "s" 2 0 false).messages = [rowTieA, rowTieB] ∧
    rowTieA.received_at = rowTieB.received_at ∧
    rowTieA.message_id ≠ rowTieB.message_id := by
  refine ⟨rfl, rfl, rfl, by decide⟩

/-! ## Helper lemmas about the session-lifecycle folds -/

lemma foldl_deactivate_messages (ids : List String) :
    ∀ st : ServerState,
      (ids.foldl (fun acc sid => deactivateRow sid acc) st).messages = st.messages := by
  induction ids with
  | nil => intro st; rfl
  | cons a as ih =>
      intro st
      rw [List.foldl_cons]
      exact ih (deactivateRow a st)

lemma foldl_deactivate_sessions_mask (ids : List String) :
    ∀ st : ServerState,
      ((ids.foldl (fun acc sid => deactivateRow sid acc) st).sessions).map
          (fun s => { s with is_active := false })
        = st.sessions.map (fun s => { s with is_active := false }) := by
  induction ids with
  | nil => intro st; rfl
  | cons a as ih =>
      intro st
      rw [List.foldl_cons, ih (deactivateRow a st)]
      show (st.sessions.map (fun s =>
          if s.session_id == a then { s with is_active := false } else s)).map
          (fun s => { s with is_active := false }) = _
      rw [List.map_map]
      refine List.map_congr_left ?_
      intro s _
      by_cases hsa : s.session_id = a
      · have hb : (s.session_id == a) = true := beq_iff_eq.mpr hsa
        simp [Function.comp, hb]
      · have hb : (s.session_id == a) = false := beq_eq_false_iff_ne.mpr hsa
        simp [Function.comp, hb]

/-- C6: the bulk `/clear-all-sessions` operation flags every session row
inactive and clears all in-memory live handles but leaves the `messages`
table completely unchanged, whereas the single-session `/delete-session`
operation does delete all of that session's messages — the asymmetry holds. -/
theorem clear_all_retains_messages_delete_session_removes_them (st : ServerState)
    (sid : String) (hs : sid ≠ "") :
    ((clear_all_sessions_endpoint st).1).messages = st.messages ∧
    ((clear_all_sessions_endpoint st).1).active = [] ∧
    ((clear_all_sessions_endpoint st).1).sessions
      = st.sessions.map (fun s => { s with is_active := false }) ∧
    ((clear_all_sessions_endpoint st).2).success = true ∧
    ((delete_session_endpoint (some sid) st).1).messages
      = st.messages.filter (fun m => !(m.session_id == sid)) ∧
    ((delete_session_endpoint (some sid) st).2).success = true := by
  have hmiss : isMissing (some sid) = false := by simp [isMissing, hs]
  have h1 : (if st.active.contains sid then deactivateRow sid st else st).messages
      = st.messages := by
    split <;> rfl
  refine ⟨?_, rfl, ?_, rfl, ?_, ?_⟩
  · exact foldl_deactivate_messages st.active st
  · exact foldl_deactivate_sessions_mask st.active st
  · unfold delete_session_endpoint
    rw [hmiss]
    simp only [Bool.false_eq_true, if_false, Option.getD_some]
    rw [h1]
  · unfold delete_session_endpoint
    rw [hmiss]
    rfl

/-- Concrete state for the C6 witness: two live sessions with one message
each. -/
def liveState : ServerState :=
  { sessions := [{ session_id := "s1", email := "a@x.tmp", created_at := 0, last_activity := 0,
                   is_active := true },
                 { session_id := "s2", email := "b@x.tmp", created_at := 0, last_activity := 1,
                   is_active := true }]
    messages := [{ message_id := "m1", session_id := "s1", sender := "p", recipient := "a@x.tmp",
                   subject := "u1", body_preview := "b1", full_content := "c1",
                   received_at := 10, is_read := false },
                 { message_id := "m2", session_id := "s2", sender := "q", recipient := "b@x.tmp",
                   subject := "u2", body_preview := "b2", full_content := "c2",
                   received_at := 11, is_read := true }]
    active := ["s1", "s2"] }

/-- C6 witness: concrete instance of the asymmetry at `liveState` and
session `s1`. -/
theorem clear_all_vs_delete_session_witness :
    ((clear_all_sessions_endpoint liveState).1).messages = liveState.messages ∧
    ((clear_all_sessions_endpoint liveState).1).active = [] ∧
    ((clear_all_sessions_endpoint liveState).1).sessions
      = liveState.sessions.map (fun s => { s with is_active := false }) ∧
    ((clear_all_sessions_endpoint liveState).2).success = true ∧
    ((delete_session_endpoint (some "s1") liveState).1).messages
      = liveState.messages.filter (fun m => !(m.session_id == "s1")) ∧
    ((delete_session_endpoint (some "s1") liveState).2).success = true :=
  clear_all_retains_messages_delete_session_removes_them liveState "s1" (by decide)

lemma foldl_purge_sessions (ids : List String) :
    ∀ st : ServerState,
      (ids.foldl (fun acc sid => purgeOne sid acc) st).sessions
        = st.sessions.filter (fun s => !(ids.contains s.session_id)) := by
  induction ids with
  | nil => intro st; simp
  | cons a as ih =>
      intro st
      rw [List.foldl_cons, ih (purgeOne a st)]
      show (st.sessions.filter (fun s => !(s.session_id == a))).filter
          (fun s => !(as.contains s.session_id)) = _
      rw [List.filter_filter]
      refine List.filter_congr ?_
      intro s _
      by_cases hsa : s.session_id = a
      · simp [hsa]
      · simp [hsa, List.contains_cons, Bool.and_comm]

lemma foldl_purge_messages (ids : List String) :
    ∀ st : ServerState,
      (ids.foldl (fun acc sid => purgeOne sid acc) st).messages
        = st.messages.filter (fun m => !(ids.contains m.session_id)) := by
  induction ids with
  | nil => intro st; simp
  | cons a as ih =>
      intro st
      rw [List.foldl_cons, ih (purgeOne a st)]
      show (st.messages.filter (fun m => !(m.session_id == a))).filter
          (fun m => !(as.contains m.session_id)) = _
      rw [List.filter_filter]
      refine List.filter_congr ?_
      intro m _
      by_cases hma : m.session_id = a
      · simp [hma]
      · simp [hma, List.contains_cons, Bool.and_comm]

/-- C7: the purge-inactive operation removes exactly the session rows whose
`is_active` flag is `0` and whose `last_activity` is older than the 24-hour
retention threshold — together with precisely those sessions' messages —
retains every other session, and reports the number of sessions removed.
The hypothesis is the `sessions` primary-key invariant (no duplicate ids). -/
theorem delete_inactive_purges_exactly_old_inactive (now : Nat) (st : ServerState)
    (hnd : (st.sessions.map (fun s => s.session_id)).Nodup) :
    ((delete_inactive_endpoint now st).1).sessions
      = st.sessions.filter
          (fun s => !(!s.is_active && decide (s.last_activity < now - 86400))) ∧
    ((delete_inactive_endpoint now st).1).messages
      = st.messages.filter (fun m =>
          !(((st.sessions.filter
                (fun s => !s.is_active && decide (s.last_activity < now - 86400))).map
              (fun s => s.session_id)).contains m.session_id)) ∧
    ((delete_inactive_endpoint now st).2).deleted_count
      = (st.sessions.filter
          (fun s => !s.is_active && decide (s.last_activity < now - 86400))).length := by
  have key : ∀ s ∈ st.sessions,
      (((st.sessions.filter
            (fun s => !s.is_active && decide (s.last_activity < now - 86400))).map
          (fun s => s.session_id)).contains s.session_id)
        = (!s.is_active && decide (s.last_activity < now - 86400)) := by
    intro s hsmem
    cases hP : (!s.is_active && decide (s.last_activity < now - 86400)) with
    | false =>
        refine Bool.eq_false_iff.mpr ?_
        intro hc
        obtain ⟨t, htf, hts⟩ := List.mem_map.mp (List.elem_iff.mp hc)
        obtain ⟨htmem, htP⟩ := List.mem_filter.mp htf
        have : t = s := List.inj_on_of_nodup_map hnd htmem hsmem hts
        subst this
        rw [hP] at htP
        exact Bool.false_ne_true htP
    | true =>
        exact List.elem_eq_true_of_mem
          (List.mem_map.mpr ⟨s, List.mem_filter.mpr ⟨hsmem, hP⟩, rfl⟩)
  refine ⟨?_, ?_, ?_⟩
  · show (((st.sessions.filter
        (fun s => !s.is_active && decide (s.last_activity < now - 86400))).map
          (fun s => s.session_id)).foldl (fun acc sid => purgeOne sid acc) st).sessions = _
    rw [foldl_purge_sessions]
    refine List.filter_congr ?_
    intro s hsmem
    rw [key s hsmem]
  · show (((st.sessions.filter
        (fun s => !s.is_active && decide (s.last_activity < now - 86400))).map
          (fun s => s.session_id)).foldl (fun acc sid => purgeOne sid acc) st).messages = _
    rw [foldl_purge_messages]
  · show ((st.sessions.filter
        (fun s => !s.is_active && decide (s.last_activity < now - 86400))).map
          (fun s => s.session_id)).length = _
    exact List.length_map _ _

/-- Concrete state for the C7 witness: an old inactive session, a recent
inactive session and an active session, each with one message. -/
def purgeState : ServerState :=
  { sessions := [{ session_id := "s1", email := "a@x.tmp", created_at := 0, last_activity := 0,
                   is_active := false },
                 { session_id := "s2", email := "b@x.tmp", created_at := 0,
                   last_activity := 999999, is_active := false },
                 { session_id := "s3", email := "c@x.tmp", created_at := 0, last_activity := 0,
                   is_active := true }]
    messages := [{ message_id := "m1", session_id := "s1", sender := "p", recipient := "a@x.tmp",
                   subject := "u1", body_preview := "b1", full_content := "c1",
                   received_at := 10, is_read := false },
                 { message_id := "m2", session_id := "s2", sender := "q", recipient := "b@x.tmp",
                   subject := "u2", body_preview := "b2", full_content := "c2",
                   received_at := 11, is_read := true },
                 { message_id := "m3", session_id := "s3", sender := "r", recipient := "c@x.tmp",
                   subject := "u3", body_preview := "b3", full_content := "c3",
                   received_at := 12, is_read := false }]
    active := [] }

/-- C7 witness: concrete purge at clock reading 1000000 (cutoff 913600):
only the old inactive session `s1` qualifies. -/
theorem delete_inactive_purges_exactly_witness :
    ((delete_inactive_endpoint 1000000 purgeState).1).sessions
      = purgeState.sessions.filter
          (fun s => !(!s.is_active && decide (s.last_activity < 1000000 - 86400))) ∧
    ((delete_inactive_endpoint 1000000 purgeState).1).messages
      = purgeState.messages.filter (fun m =>
          !(((purgeState.sessions.filter
                (fun s => !s.is_active && decide (s.last_activity < 1000000 - 86400))).map
              (fun s => s.session_id)).contains m.session_id)) ∧
    ((delete_inactive_endpoint 1000000 purgeState).2).deleted_count
      = (purgeState.sessions.filter
          (fun s => !s.is_active && decide (s.last_activity < 1000000 - 86400))).length :=
  delete_inactive_purges_exactly_old_inactive 1000000 purgeState (by decide)

/-- C8: whatever the outcome of the external inbox fetch — transport failure
and non-200 status included — `/check-inbox` with both fields supplied
answers `success=true` with status `ok` or `no_messages`; the `error` status
that `get_inbox` produces on failure is never surfaced, and the failure
outcomes in fact take the `ok` branch, because the error dict still carries a
`messages` key. -/
theorem check_inbox_never_propagates_error (email sid : String) (he : email ≠ "")
    (hs : sid ≠ "") (outcome : FetchOutcome) (clock : Nat → Nat) (now : Nat)
    (st : ServerState) :
    ((check_inbox_endpoint (some email) (some sid) outcome clock now st).2).success = true ∧
    (((check_inbox_endpoint (some email) (some sid) outcome clock now st).2).status
        = some "ok" ∨
      ((check_inbox_endpoint (some email) (some sid) outcome clock now st).2).status
        = some "no_messages") ∧
    ((check_inbox_endpoint (some email) (some sid) outcome clock now st).2).status
      ≠ some "error" ∧
    (isFetchFailure outcome = true →
      ((check_inbox_endpoint (some email) (some sid) outcome clock now st).2).status
        = some "ok") := by
  have hmiss : (isMissing (some email) || isMissing (some sid)) = false := by
    simp [isMissing, he, hs]
  unfold check_inbox_endpoint
  rw [hmiss]
  simp only [Bool.false_eq_true, if_false, Option.getD_some]
  cases outcome with
  | exn m => simp [get_inbox, dictTruthy, isFetchFailure]
  | non200 c => simp [get_inbox, dictTruthy, isFetchFailure]
  | ok body =>
      simp only [get_inbox, isFetchFailure]
      cases hcond : dictTruthy body && body.messages.isSome with
      | false => simp [hcond]
      | true => simp [hcond]

/-- C8 witness: concrete instance at a transport failure. -/
theorem check_inbox_never_propagates_error_witness :
    ((check_inbox_endpoint (some "e@x.tmp") (some "sX") (FetchOutcome.exn "boom")
        (fun _ => 0) 0 emptyState).2).success = true ∧
    (((check_inbox_endpoint (some "e@x.tmp") (some "sX") (FetchOutcome.exn "boom")
        (fun _ => 0) 0 emptyState).2).status = some "ok" ∨
      ((check_inbox_endpoint (some "e@x.tmp") (some "sX") (FetchOutcome.exn "boom")
        (fun _ => 0) 0 emptyState).2).status = some "no_messages") ∧
    ((check_inbox_endpoint (some "e@x.tmp") (some "sX") (FetchOutcome.exn "boom")
        (fun _ => 0) 0 emptyState).2).status ≠ some "error" ∧
    (isFetchFailure (FetchOutcome.exn "boom") = true →
      ((check_inbox_endpoint (some "e@x.tmp") (some "sX") (FetchOutcome.exn "boom")
        (fun _ => 0) 0 emptyState).2).status = some "ok") :=
  check_inbox_never_propagates_error "e@x.tmp" "sX" (by decide) (by decide)
    (FetchOutcome.exn "boom") (fun _ => 0) 0 emptyState

lemma find?_insertOrReplace (l : List SessionRow) (sid : String) (r : SessionRow)
    (hr : (r.session_id == sid) = true) :
    (l.filter (fun s => !(s.session_id == sid)) ++ [r]).find? (fun s => s.session_id == sid)
      = some r := by
  induction l with
  | nil => simp [List.find?, hr]
  | cons x xs ih =>
      cases hx : (x.session_id == sid) with
      | true =>
          rw [List.filter_cons_of_neg (by simp [hx])]
          exact ih
      | false =>
          rw [List.filter_cons_of_pos (by simp [hx]), List.cons_append,
            List.find?_cons_of_neg _ (by simp [hx])]
          exact ih

/-- C9: reactivating a known session constructs a fresh `TempMailSession`,
whose constructor insert-or-replaces the session row, so the stored
`created_at` and `last_activity` are both reset to the current clock reading
and `is_active` is forced back to `1`; the original creation timestamp is not
preserved (the stored row after reactivation carries `created_at = now`
regardless of what the looked-up row held). -/
theorem activate_session_resets_timestamps (sid : String) (hs : sid ≠ "") (now : Nat)
    (st : ServerState) (row : SessionRow)
    (hf : st.sessions.find? (fun s => s.session_id == sid) = some row) :
    ((((activate_session_endpoint (some sid) now st).1).sessions).find?
        (fun s => s.session_id == sid))
      = some { session_id := sid, email := row.email, created_at := now,
               last_activity := now, is_active := true } ∧
    ((activate_session_endpoint (some sid) now st).2).success = true ∧
    ((activate_session_endpoint (some sid) now st).2).email = some row.email := by
  have hmiss : isMissing (some sid) = false := by simp [isMissing, hs]
  have hact : activate_session_endpoint (some sid) now st
      = (tempMailSessionInit row.email sid now st,
         { success := true, email := some row.email, session_id := some sid,
           error := none }) := by
    unfold activate_session_endpoint
    rw [hmiss]
    simp only [Bool.false_eq_true, if_false, Option.getD_some]
    rw [hf]
  refine ⟨?_, ?_, ?_⟩
  · rw [hact]
    exact find?_insertOrReplace st.sessions sid _ (by simp)
  · rw [hact]
  · rw [hact]

/-- Stale stored session used in the C9 witness. -/
def staleSession : SessionRow :=
  { session_id := "s9", email := "old@x.tmp", created_at := 5, last_activity := 7,
    is_active := false }

/-- State holding only the stale session, for the C9 witness. -/
def staleState : ServerState := { sessions := [staleSession], messages := [], active := [] }

/-- C9 witness: reactivating the stale session at reading 42 stores
`created_at = last_activity = 42` and `is_active = 1`. -/
theorem activate_session_resets_timestamps_witness :
    ((((activate_session_endpoint (some "s9") 42 staleState).1).sessions).find?
        (fun s => s.session_id == "s9"))
      = some { session_id := "s9", email := "old@x.tmp", created_at := 42,
               last_activity := 42, is_active := true } ∧
    ((activate_session_endpoint (some "s9") 42 staleState).2).success = true ∧
    ((activate_session_endpoint (some "s9") 42 staleState).2).email = some "old@x.tmp" :=
  activate_session_resets_timestamps "s9" (by decide) 42 staleState staleSession (by decide)

end TempMail
